import Mathlib

/-!
Verification development for the Enterprise Assistant backend (`app.py`).

The embedding below mirrors the Python source shallowly:
- Python strings are Lean `String`s; `len`/slicing are modelled on the
  underlying character list (`String.data`), matching Python's code-point
  semantics.
- Python truthiness of optional strings (`if not content:`) is `pyFalsy`.
- The network is an explicit oracle parameter (`NetOutcome` for the raw
  HTTP outcome of `call_openrouter_chat`, a `client` function for the
  handlers), so the otherwise-effectful handlers become pure functions.
- The mutable `sessions` dict is a function `String → Option (List Turn)`
  threaded through the chat handler.
-/

/-- Python truthiness of a possibly-absent string: `None` and `""` are falsy. -/
def pyFalsy : Option String → Bool
  | none => true
  | some s => s = ""

/-- Python `a or b` on possibly-absent strings: `a` if truthy, else `b`. -/
def pyOrOpt (a b : Option String) : Option String :=
  if pyFalsy a then b else a

/-- Python `len(s)`: number of code points. -/
def pyLen (s : String) : Nat := s.data.length

/-- Python `s[:n]`: first `n` code points. -/
def pyTake (s : String) (n : Nat) : String := String.mk (s.data.take n)

/-- Python `s.lower()` (character-wise, ASCII range as in the keywords used). -/
def pyLower (s : String) : String := String.mk (s.data.map Char.toLower)

/-- Python `s.strip()` on a character list: drop whitespace at both ends. -/
def pyStripList (l : List Char) : List Char :=
  ((l.dropWhile Char.isWhitespace).reverse.dropWhile Char.isWhitespace).reverse

/-- Python `s.strip()`. -/
def pyStrip (s : String) : String := String.mk (pyStripList s.data)

/-- `startsWithList hay needle`: `needle` is a prefix of `hay` (as char lists). -/
def startsWithList : List Char → List Char → Bool
  | _, [] => true
  | [], _ :: _ => false
  | a :: as, b :: bs => a = b && startsWithList as bs

/-- `listHasSub needle hay`: `needle` occurs contiguously in `hay`. -/
def listHasSub (needle : List Char) : List Char → Bool
  | [] => needle.isEmpty
  | c :: t => startsWithList (c :: t) needle || listHasSub needle t

/-- Python `needle in haystack` for strings (contiguous substring test). -/
def pyIn (needle haystack : String) : Bool :=
  listHasSub needle.data haystack.data

/-- A role/content pair, the element of an OpenAI-style `messages` list. -/
structure Msg where
  role : String
  content : String
deriving DecidableEq, Repr

/-- A stored session turn: `{"role": ..., "text": ..., "ts": ...}`. -/
structure Turn where
  role : String
  text : String
  ts : Nat
deriving DecidableEq, Repr

/-- First element of the parsed `choices` list, with the two fields the code
inspects. `messageContent = some v` models `message` being a dict with a
`content` key whose value is `v` (`none` = JSON null); the outer `none`
models absence of such a dict. Same convention for the `text` key. -/
structure Choice where
  messageContent : Option (Option String)
  text : Option (Option String)
deriving DecidableEq, Repr

/-- A parsed 200-response JSON object, restricted to the fields
`call_openrouter_chat` reads. Top-level `text`/`generated_text` use
`data.get`, which conflates absent and null, hence plain `Option String`. -/
structure ApiData where
  choices : Option (List Choice)
  text : Option String
  generated_text : Option String
deriving DecidableEq, Repr

/-- The choices-list stage of the extraction (app.py lines 116-124): the
`if isinstance(msg, dict) and "content" in msg / elif "text" in c0` block
over the first element of `choices`. -/
def choicesContent (data : ApiData) : Option String :=
  match data.choices with
  | some (c0 :: _) =>
    match c0.messageContent with
    | some v => v
    | none =>
      match c0.text with
      | some v => v
      | none => none
  | _ => none

/-- The content-extraction block of `call_openrouter_chat` run on a parsed
200 response (app.py lines 115-127): the choices-list stage, then
`data.get("text") or data.get("generated_text")` when its result is falsy. -/
def extract_content (data : ApiData) : Option String :=
  let content := choicesContent data
  if pyFalsy content then pyOrOpt data.text data.generated_text else content

/-- Lines 128-130 of app.py: a truthy extracted content is stripped and
tagged `"ai"`; otherwise the result is `(none, "no_content")`. -/
def handle_200 (data : ApiData) : Option String × String :=
  let content := extract_content data
  if pyFalsy content then (none, "no_content")
  else (content.map pyStrip, "ai")

/-- Outcome of the single HTTP POST in `call_openrouter_chat`:
a transport fault, or a response with a status code and (when the body is
read) the parsed JSON (`none` = `resp.json()` raised). -/
inductive NetOutcome where
  | exc : NetOutcome
  | resp : Nat → Option ApiData → NetOutcome
deriving DecidableEq, Repr

/-- `call_openrouter_chat` (app.py lines 85-133) with the credential and the
network outcome made explicit parameters. Returns
`(content_str_or_None, status_tag)`. -/
def call_openrouter_chat (apiKey : String) (net : NetOutcome) (messages : List Msg)
    (temperature : ℚ) (max_tokens : Nat) (model : String) : Option String × String :=
  if apiKey = "" then (none, "missing_api_key")
  else
    match net with
    | .exc => (none, "exception")
    | .resp status body =>
      if status ≠ 200 then (none, "api_error_" ++ toString status)
      else
        match body with
        | none => (none, "exception")
        | some data => handle_200 data

/-- First keyword bucket of `smart_fallback`. -/
def bucket1 : List String := ["leave", "vacation", "time off", "holiday"]

/-- Second keyword bucket of `smart_fallback`. -/
def bucket2 : List String := ["password", "reset", "login", "account"]

/-- Third keyword bucket of `smart_fallback`. -/
def bucket3 : List String := ["software", "install", "program", "application"]

/-- Canned reply of the leave/vacation bucket. -/
def leaveReply : String :=
  "Employees typically receive 20 vacation days per year. Please submit leave requests through the HR portal at least two weeks in advance."

/-- Canned reply of the password/reset/login/account bucket. -/
def passwordReply : String :=
  "To reset your password, go to portal.company.com and click \x27Forgot Password\x27. If that doesn\x27t work, reach out to IT at x4357."

/-- Canned reply of the software/install bucket. -/
def softwareReply : String :=
  "Submit a software request through the IT Service Catalog with manager approval; typical installs complete within 24 hours."

/-- `smart_fallback` (app.py lines 138-146): lowercase the message, test the
three keyword buckets in order by substring containment, else a generic
reply interpolating the original message. -/
def smart_fallback (message : String) : String :=
  let m := pyLower message
  if bucket1.any (fun w => pyIn w m) then leaveReply
  else if bucket2.any (fun w => pyIn w m) then passwordReply
  else if bucket3.any (fun w => pyIn w m) then softwareReply
  else
    "I understand you\x27re asking about \x27" ++ message ++
      "\x27. I can help with HR, IT, events, and document summaries — could you give a bit more detail?"

/-- The system prompt (app.py lines 74-80, adjacent literals concatenated). -/
def SYSTEM_PROMPT : String :=
  "You are an experienced, friendly, and creative enterprise assistant. Respond in a warm, conversational, and slightly improvised tone — like a helpful colleague who can explain things clearly, add a tiny anecdote or relatable example when appropriate, and ask one short clarifying question if needed. Keep the response professional but human. Aim for 2-7 sentences unless user asks for brevity. When summarizing documents, provide a concise title (5 words max), 3–6 bullets with key points, and one short suggested action."

/-- Python `l[-n:]`: the last `n` elements (all of them when fewer). -/
def lastN (n : Nat) (l : List α) : List α := l.drop (l.length - n)

/-- The per-turn mapping of the chat handler (app.py lines 173-179): role
`"assistant"` keeps its role, every other stored role is sent as `"user"`. -/
def turnToMsg (t : Turn) : Msg :=
  if t.role = "assistant" then ⟨"assistant", t.text⟩ else ⟨"user", t.text⟩

/-- Prompt assembly of the chat handler (app.py lines 170-182), applied to the
session history `hist1` as it stands after the user turn was appended:
system prompt, then the last 6 stored turns, then the current message again. -/
def buildMessages (hist1 : List Turn) (message : String) : List Msg :=
  ⟨"system", SYSTEM_PROMPT⟩ :: ((lastN 6 hist1).map turnToMsg ++ [⟨"user", message⟩])

/-- The in-memory `sessions` dict: session id → stored turn list. -/
def Store : Type := String → Option (List Turn)

/-- JSON body of a successful `/api/chat` response (app.py lines 197-203).
`confidence` is modelled as a rational. -/
structure ChatResponse where
  success : Bool
  response : String
  source : String
  confidence : ℚ
  session_id : String

/-- `session_id = data.get("session_id") or str(uuid.uuid4())` (app.py
line 163): a missing or empty (falsy) client id is replaced by the fresh id. -/
def effSessionId (sid_in : Option String) (fresh : String) : String :=
  match sid_in with
  | some s => if s = "" then fresh else s
  | none => fresh

/-- The session history for `sid` with the current user turn appended
(app.py lines 164-168); a missing session starts from the empty list. -/
def histAfterUser (store : Store) (sid : String) (message : String) (t1 : Nat) : List Turn :=
  ((store sid).getD []) ++ [⟨"user", message, t1⟩]

/-- The `/api/chat` handler (app.py lines 155-203) as a pure function.
`client` is the completion oracle (invoked with the built messages,
temperature 0.9 and max_tokens 700); `fresh_id` stands for `uuid.uuid4()`;
`t1`/`t2` are the two `time.time()` readings. Result `none` is the
400 "Empty message" branch; otherwise the updated store and response body. -/
def chat (client : List Msg → ℚ → Nat → Option String × String) (store : Store)
    (sid_in : Option String) (fresh_id : String) (message_in : Option String)
    (t1 t2 : Nat) : Option (Store × ChatResponse) :=
  let message := pyStrip (message_in.getD "")
  if message = "" then none
  else
    let session_id := effSessionId sid_in fresh_id
    let hist1 := histAfterUser store session_id message t1
    let messages := buildMessages hist1 message
    let res := (client messages 0.9 700).1
    let ai_text := if pyFalsy res then smart_fallback message else res.getD ""
    let response_source := if pyFalsy res then "fallback" else "ai"
    let confidence : ℚ := if pyFalsy res then 0.45 else 0.9
    let hist2 := hist1 ++ [⟨"assistant", ai_text, t2⟩]
    let store2 : Store := fun s => if s = session_id then some hist2 else store s
    some (store2, ⟨true, ai_text, response_source, confidence, session_id⟩)

/-- Default of the `MAX_PROMPT_CHARS` configuration (app.py line 31). -/
def MAX_PROMPT_CHARS_default : Nat := 16000

/-- Truncation decision of the upload handler (app.py lines 234-244):
`(text_to_send, trunc_note, truncated, char_count)`. -/
def uploadTruncate (text : String) (maxPromptChars : Nat) :
    String × String × Bool × Nat :=
  let char_count := pyLen text
  if char_count > maxPromptChars then
    (pyTake text maxPromptChars,
      "\n\n[Document truncated; original length " ++ toString char_count ++
        " characters. Summarize the provided portion and mention it\x27s truncated.]\n",
      true, char_count)
  else (text, "", false, char_count)

/-- Is the character one of the keyword delimiters of `re.split(r"[,\n;]+", ...)`? -/
def isKwDelim (c : Char) : Bool := c = ',' || c = ';' || c = '\n'

/-- `re.split(r"[,\n;]+", s)` on the character list of `s`: split on maximal
delimiter runs. `inRun` records whether the previous character was a
delimiter (so further delimiters extend the same run). -/
def reSplitAux (inRun : Bool) : List Char → List Char → List String
  | [], cur => [String.mk cur.reverse]
  | c :: rest, cur =>
    if isKwDelim c then
      if inRun then reSplitAux true rest cur
      else String.mk cur.reverse :: reSplitAux true rest []
    else reSplitAux false rest (c :: cur)

/-- `re.split(r"[,\n;]+", s)` for a string. -/
def reSplitKw (s : String) : List String := reSplitAux false s.data []

/-- One candidate's cleanup in the keyword loop: `c.strip().lower()`. -/
def kwClean (c : String) : String := pyLower (pyStrip c)

/-- The keyword accumulation loop of the upload handler (app.py lines
280-285): clean each candidate, keep non-empty unseen ones, stop as soon as
8 keywords are collected. -/
def kwLoop : List String → List String → List String
  | [], keywords => keywords
  | c :: rest, keywords =>
    let clean := kwClean c
    let keywords1 := if clean ≠ "" ∧ clean ∉ keywords then keywords ++ [clean] else keywords
    if keywords1.length ≥ 8 then keywords1 else kwLoop rest keywords1

/-- Keyword extraction of the upload handler (app.py lines 277-285) from the
completion result `kw_text`: empty list unless `kw_text` is truthy. -/
def parse_keywords (kw_text : Option String) : List String :=
  match kw_text with
  | none => []
  | some t => if t = "" then [] else kwLoop (reSplitKw t) []

/-- Keep a possibly-absent string only when it is present and non-empty
(the "non-empty match" notion used when describing the extraction order). -/
def truthyOpt (v : Option String) : Option String :=
  match v with
  | some s => if s = "" then none else some s
  | none => none

/-- Extraction path (1): the first choice's `message.content` value. -/
def pathMessageContent (d : ApiData) : Option String :=
  match d.choices with
  | some (c0 :: _) =>
    match c0.messageContent with
    | some v => v
    | none => none
  | _ => none

/-- Extraction path (2): the first choice's `text` value. -/
def pathChoiceText (d : ApiData) : Option String :=
  match d.choices with
  | some (c0 :: _) =>
    match c0.text with
    | some v => v
    | none => none
  | _ => none

/-- Modelled from the claim wording: attempt the four extraction paths
strictly in order, the first non-empty match wins. Used to compare the
claimed behaviour with `handle_200`. -/
def claimOrderedExtract (d : ApiData) : Option String :=
  match truthyOpt (pathMessageContent d) with
  | some s => some s
  | none =>
    match truthyOpt (pathChoiceText d) with
    | some s => some s
    | none =>
      match truthyOpt d.text with
      | some s => some s
      | none => truthyOpt d.generated_text

/-- Modelled from the claim wording: the 200-response result under the
strictly-ordered reading — first non-empty match tagged `"ai"`, else
`(none, "no_content")`. -/
def claimOrderedResult (d : ApiData) : Option String × String :=
  match claimOrderedExtract d with
  | some s => (some s, "ai")
  | none => (none, "no_content")

/-- The amended description of the extraction: stage (1) consumes the
choices-list attempt whenever the first choice has a message dict with a
`content` key — its `text` field is then never consulted; stage (2)
otherwise reads that `text` field; only when the stage (1)/(2) value is
empty or absent are top-level `text` and then `generated_text` tried. -/
def amendedExtract (d : ApiData) : Option String :=
  match truthyOpt (choicesContent d) with
  | some s => some s
  | none =>
    match truthyOpt d.text with
    | some s => some s
    | none => truthyOpt d.generated_text

/-- The amended 200-response result: the staged value, when truthy, is
stripped and tagged `"ai"`; otherwise `(none, "no_content")`. -/
def amendedResult (d : ApiData) : Option String × String :=
  match amendedExtract d with
  | some s => (some (pyStrip s), "ai")
  | none => (none, "no_content")

/-- A 200 response whose first choice has `message.content = ""` and
`text = "hi"`, with no top-level fallbacks: the ordered reading extracts
`"hi"`, the code does not. -/
def cexData : ApiData := ⟨some [⟨some (some ""), some (some "hi")⟩], none, none⟩

/-- One step of first-occurrence deduplication of non-empty entries. -/
def dedupAppend (acc : List String) (c : String) : List String :=
  if c ≠ "" ∧ c ∉ acc then acc ++ [c] else acc

/-- Declarative description of the keyword parse: clean every piece of the
delimiter split, drop empties while deduplicating in first-occurrence
order, cap at 8. -/
def keywordsSpec (t : String) : List String :=
  List.take 8 (((reSplitKw t).map kwClean).foldl dedupAppend [])

/-- Fixture: a completion client that always fails. -/
def wClientFail : List Msg → ℚ → Nat → Option String × String :=
  fun _ _ _ => (none, "missing_api_key")

/-- Fixture: the empty session store. -/
def wStoreEmpty : Store := fun _ => none

/-- Fixture: the store produced by one failed-completion chat call on
session `"s1"` with message `"hello"`. -/
def wStoreAfter : Store := fun s =>
  if s = "s1" then
    some [⟨"user", "hello", 0⟩, ⟨"assistant", smart_fallback "hello", 1⟩]
  else none

/-- Fixture: the response of that chat call. -/
def wRespFallback : ChatResponse :=
  ⟨true, smart_fallback "hello", "fallback", 0.45, "s1"⟩

theorem truthyOpt_eq_none_of_pyFalsy {v : Option String} (h : pyFalsy v = true) :
    truthyOpt v = none := by
  cases v with
  | none => rfl
  | some s =>
    simp [pyFalsy] at h
    simp [truthyOpt, h]

theorem exists_of_pyFalsy_false {v : Option String} (h : pyFalsy v = false) :
    ∃ s, v = some s ∧ s ≠ "" ∧ truthyOpt v = some s := by
  cases v with
  | none => simp [pyFalsy] at h
  | some s =>
    simp [pyFalsy] at h
    exact ⟨s, rfl, h, by simp [truthyOpt, h]⟩

/-- C1 (amended): on a 200 response the extraction is staged — the choices
stage first (its two paths mutually exclusive inside `choicesContent`), the
top-level `text` then `generated_text` fallbacks only when that stage's
value is empty or absent; a truthy final value is stripped and tagged
`"ai"`, otherwise the result is `(none, "no_content")`. -/
theorem extraction_amended_spec : ∀ d : ApiData, handle_200 d = amendedResult d := by
  intro d
  unfold handle_200 extract_content amendedResult amendedExtract
  cases hc : pyFalsy (choicesContent d) with
  | false =>
    obtain ⟨s, hcs, hs, ht⟩ := exists_of_pyFalsy_false hc
    simp [hc, ht, hcs, pyFalsy, hs, truthyOpt]
  | true =>
    rw [truthyOpt_eq_none_of_pyFalsy hc]
    simp only [hc, if_true]
    cases hft : pyFalsy d.text with
    | false =>
      obtain ⟨s, hts, hs, ht2⟩ := exists_of_pyFalsy_false hft
      simp [pyOrOpt, hft, ht2, hts, pyFalsy, hs, truthyOpt]
    | true =>
      rw [truthyOpt_eq_none_of_pyFalsy hft]
      have hor : pyOrOpt d.text d.generated_text = d.generated_text := by
        simp [pyOrOpt, hft]
      rw [hor]
      cases hfg : pyFalsy d.generated_text with
      | false =>
        obtain ⟨s, hgs, hs, hg2⟩ := exists_of_pyFalsy_false hfg
        simp [hfg, hg2, hgs, pyFalsy, hs, truthyOpt]
      | true =>
        rw [truthyOpt_eq_none_of_pyFalsy hfg]
        simp [hfg]

/-- C1 (counterexample): on the 200 response whose first choice carries
`message.content = ""` and `text = "hi"`, the strictly-ordered
first-non-empty reading of the claim extracts `"hi"` with tag `"ai"`, but
the code returns `(none, "no_content")`. -/
theorem extraction_order_counterexample :
    claimOrderedResult cexData = (some "hi", "ai")
    ∧ handle_200 cexData = (none, "no_content") := by
  decide

/-- C9: with no API credential configured, `call_openrouter_chat` returns
`(none, "missing_api_key")` for every message list and parameter choice,
and its result does not depend on the network outcome at all. -/
theorem missing_api_key_spec :
    ∀ (net : NetOutcome) (messages : List Msg) (temperature : ℚ)
      (max_tokens : Nat) (model : String),
      call_openrouter_chat "" net messages temperature max_tokens model
          = (none, "missing_api_key")
        ∧ ∀ net' : NetOutcome,
            call_openrouter_chat "" net messages temperature max_tokens model
              = call_openrouter_chat "" net' messages temperature max_tokens model := by
  intro net messages temperature max_tokens model
  exact ⟨rfl, fun _ => rfl⟩

theorem bucket2_any_of_password {m : String} (h : pyIn "password" m = true) :
    bucket2.any (fun w => pyIn w m) = true := by
  simp [bucket2, List.any_cons, List.any_nil, h]

/-- C6: a message containing "password" (in any letter case) and no
keyword of the leave/vacation/time-off/holiday bucket gets the fixed
password-bucket sentence; and in general the first matching bucket in
source order determines the output. -/
theorem fallback_bucket_order_spec :
    (∀ msg : String,
        pyIn "password" (pyLower msg) = true →
        bucket1.any (fun w => pyIn w (pyLower msg)) = false →
        smart_fallback msg = passwordReply)
    ∧ (∀ msg : String,
        bucket1.any (fun w => pyIn w (pyLower msg)) = true →
        smart_fallback msg = leaveReply)
    ∧ (∀ msg : String,
        bucket1.any (fun w => pyIn w (pyLower msg)) = false →
        bucket2.any (fun w => pyIn w (pyLower msg)) = true →
        smart_fallback msg = passwordReply)
    ∧ (∀ msg : String,
        bucket1.any (fun w => pyIn w (pyLower msg)) = false →
        bucket2.any (fun w => pyIn w (pyLower msg)) = false →
        bucket3.any (fun w => pyIn w (pyLower msg)) = true →
        smart_fallback msg = softwareReply) := by
  refine ⟨fun msg hp h1 => ?_, fun msg h1 => ?_, fun msg h1 h2 => ?_, fun msg h1 h2 h3 => ?_⟩
  · simp only [smart_fallback, h1, bucket2_any_of_password hp]
    rfl
  · simp only [smart_fallback, h1]
    rfl
  · simp only [smart_fallback, h1, h2]
    rfl
  · simp only [smart_fallback, h1, h2, h3]
    rfl

/-- Witness for the C6 theorem at the concrete message "Lost my PASSWORD". -/
theorem fallback_bucket_order_witness :
    smart_fallback "Lost my PASSWORD" = passwordReply :=
  fallback_bucket_order_spec.1 "Lost my PASSWORD" (by decide) (by decide)

/-- C7: `smart_fallback` is total and deterministic — every input (the empty
string included) gets a non-empty reply, and equal inputs get equal replies. -/
theorem fallback_totality_spec :
    (∀ msg : String, smart_fallback msg ≠ "")
    ∧ (∀ m1 m2 : String, m1 = m2 → smart_fallback m1 = smart_fallback m2) := by
  constructor
  · intro msg
    unfold smart_fallback
    dsimp only
    split
    · decide
    · split
      · decide
      · split
        · decide
        · intro h
          have h2 := congrArg String.length h
          rw [String.length_append, String.length_append] at h2
          have hz : ("" : String).length = 0 := rfl
          have hpos : 0 < ("I understand you\x27re asking about \x27" : String).length := by
            decide
          omega
  · intro m1 m2 h
    rw [h]

/-- Witness for the C7 theorem at the concrete messages "" and "hi". -/
theorem fallback_totality_witness :
    smart_fallback "" ≠ "" ∧ smart_fallback "hi" = smart_fallback "hi" :=
  ⟨fallback_totality_spec.1 "", fallback_totality_spec.2 "hi" "hi" rfl⟩

theorem chat_characterization
    (client : List Msg → ℚ → Nat → Option String × String) (store : Store)
    (sid_in : Option String) (fresh_id : String) (message_in : Option String)
    (t1 t2 : Nat) (hm : pyStrip (message_in.getD "") ≠ "") :
    chat client store sid_in fresh_id message_in t1 t2 =
      (let message := pyStrip (message_in.getD "")
       let session_id := effSessionId sid_in fresh_id
       let hist1 := histAfterUser store session_id message t1
       let res := (client (buildMessages hist1 message) 0.9 700).1
       let ai_text := if pyFalsy res then smart_fallback message else res.getD ""
       some (fun s => if s = session_id then some (hist1 ++ [⟨"assistant", ai_text, t2⟩]) else store s,
             ⟨true, ai_text, if pyFalsy res then "fallback" else "ai",
              if pyFalsy res then (0.45 : ℚ) else 0.9, session_id⟩)) := by
  unfold chat
  rw [if_neg hm]

/-- C5: for a chat call with non-empty message, a completion client result
with no usable text yields `source = "fallback"`, `confidence = 0.45` and the
fallback responder's text; a usable client result yields `source = "ai"` and
`confidence = 0.9`. -/
theorem chat_source_confidence_spec :
    ∀ (client : List Msg → ℚ → Nat → Option String × String) (store : Store)
      (sid_in : Option String) (fresh_id : String) (message_in : Option String)
      (t1 t2 : Nat) (st : Store) (resp : ChatResponse),
      chat client store sid_in fresh_id message_in t1 t2 = some (st, resp) →
      (pyFalsy (client (buildMessages
            (histAfterUser store (effSessionId sid_in fresh_id)
              (pyStrip (message_in.getD "")) t1)
            (pyStrip (message_in.getD ""))) 0.9 700).1 = true →
          resp.source = "fallback" ∧ resp.confidence = 0.45
            ∧ resp.response = smart_fallback (pyStrip (message_in.getD "")))
      ∧ (pyFalsy (client (buildMessages
            (histAfterUser store (effSessionId sid_in fresh_id)
              (pyStrip (message_in.getD "")) t1)
            (pyStrip (message_in.getD ""))) 0.9 700).1 = false →
          resp.source = "ai" ∧ resp.confidence = 0.9) := by
  intro client store sid_in fresh_id message_in t1 t2 st resp h
  by_cases hm : pyStrip (message_in.getD "") = ""
  · unfold chat at h
    rw [if_pos hm] at h
    exact absurd h (by simp)
  · rw [chat_characterization client store sid_in fresh_id message_in t1 t2 hm] at h
    simp only [Option.some_inj, Prod.mk.injEq] at h
    obtain ⟨hst, hresp⟩ := h
    constructor
    · intro hfal
      rw [← hresp]
      simp [hfal]
    · intro hfal
      rw [← hresp]
      simp [hfal]

/-- Witness for the C5 theorem: one failed-completion chat call on session
"s1" with message "hello". -/
theorem chat_source_confidence_witness :
    wRespFallback.source = "fallback" ∧ wRespFallback.confidence = 0.45
      ∧ wRespFallback.response = smart_fallback (pyStrip ((some "hello").getD "")) :=
  (chat_source_confidence_spec wClientFail wStoreEmpty (some "s1") "f" (some "hello")
    0 1 wStoreAfter wRespFallback rfl).1 rfl

/-- C8: a chat call with non-empty message appends to its own session
exactly one user turn (the message) followed by exactly one assistant turn
(the response text) — for every completion client, the failing ones
included. -/
theorem chat_turn_append_spec :
    ∀ (client : List Msg → ℚ → Nat → Option String × String) (store : Store)
      (sid_in : Option String) (fresh_id : String) (message_in : Option String)
      (t1 t2 : Nat) (st : Store) (resp : ChatResponse),
      chat client store sid_in fresh_id message_in t1 t2 = some (st, resp) →
      st (effSessionId sid_in fresh_id)
        = some (((store (effSessionId sid_in fresh_id)).getD [])
            ++ [⟨"user", pyStrip (message_in.getD ""), t1⟩,
                ⟨"assistant", resp.response, t2⟩]) := by
  intro client store sid_in fresh_id message_in t1 t2 st resp h
  by_cases hm : pyStrip (message_in.getD "") = ""
  · unfold chat at h
    rw [if_pos hm] at h
    exact absurd h (by simp)
  · rw [chat_characterization client store sid_in fresh_id message_in t1 t2 hm] at h
    simp only [Option.some_inj, Prod.mk.injEq] at h
    obtain ⟨hst, hresp⟩ := h
    rw [← hst, ← hresp]
    simp [histAfterUser]

/-- Witness for the C8 theorem: the store after one failed-completion chat
call on session "s1" with message "hello". -/
theorem chat_turn_append_witness :
    wStoreAfter (effSessionId (some "s1") "f")
      = some (((wStoreEmpty (effSessionId (some "s1") "f")).getD [])
          ++ [⟨"user", pyStrip ((some "hello").getD ""), 0⟩,
              ⟨"assistant", wRespFallback.response, 1⟩]) :=
  chat_turn_append_spec wClientFail wStoreEmpty (some "s1") "f" (some "hello")
    0 1 wStoreAfter wRespFallback rfl

/-- C10: a chat call leaves every other session's store entry unchanged. -/
theorem chat_frame_spec :
    ∀ (client : List Msg → ℚ → Nat → Option String × String) (store : Store)
      (sid_in : Option String) (fresh_id : String) (message_in : Option String)
      (t1 t2 : Nat) (st : Store) (resp : ChatResponse) (s : String),
      chat client store sid_in fresh_id message_in t1 t2 = some (st, resp) →
      s ≠ effSessionId sid_in fresh_id →
      st s = store s := by
  intro client store sid_in fresh_id message_in t1 t2 st resp s h hs
  by_cases hm : pyStrip (message_in.getD "") = ""
  · unfold chat at h
    rw [if_pos hm] at h
    exact absurd h (by simp)
  · rw [chat_characterization client store sid_in fresh_id message_in t1 t2 hm] at h
    simp only [Option.some_inj, Prod.mk.injEq] at h
    obtain ⟨hst, hresp⟩ := h
    rw [← hst]
    simp [hs]

/-- Witness for the C10 theorem: session "other" is untouched by the chat
call on session "s1". -/
theorem chat_frame_witness :
    wStoreAfter "other" = wStoreEmpty "other" :=
  chat_frame_spec wClientFail wStoreEmpty (some "s1") "f" (some "hello")
    0 1 wStoreAfter wRespFallback "other" rfl (by decide)

theorem lastN_min_self (n : Nat) (l : List α) : lastN (min n l.length) l = lastN n l := by
  unfold lastN
  congr 1
  omega

theorem lastN_append_last (n : Nat) (l : List α) (x : α) (hn : 0 < n) :
    lastN n (l ++ [x]) = lastN (n - 1) l ++ [x] := by
  unfold lastN
  rw [List.length_append]
  rw [List.drop_append_of_le_length (by simp; omega)]
  congr 2
  simp
  omega

/-- C2: the completion request built for a non-empty chat message `m` over a
session that already held `hist0` (so `hist0.length + 1` turns once `m` is
appended) is the system prompt, the last `min 6 (hist0.length + 1)` stored
turns mapped to user/assistant, and `m` again as a final user entry — the
window always ends with the just-stored copy of `m`, so `⟨"user", m⟩`
occurs at least twice, with no deduplication. -/
theorem chat_prompt_spec :
    ∀ (hist0 : List Turn) (m : String) (t1 : Nat), m ≠ "" →
      buildMessages (hist0 ++ [⟨"user", m, t1⟩]) m
          = ⟨"system", SYSTEM_PROMPT⟩ ::
              ((lastN (min 6 (hist0.length + 1)) (hist0 ++ [⟨"user", m, t1⟩])).map turnToMsg
                ++ [⟨"user", m⟩])
        ∧ (lastN 6 (hist0 ++ [⟨"user", m, t1⟩])).map turnToMsg
            = (lastN 5 hist0).map turnToMsg ++ [⟨"user", m⟩]
        ∧ 2 ≤ (buildMessages (hist0 ++ [⟨"user", m, t1⟩]) m).count ⟨"user", m⟩ := by
  intro hist0 m t1 _
  have hwin : (lastN 6 (hist0 ++ [⟨"user", m, t1⟩])).map turnToMsg
      = (lastN 5 hist0).map turnToMsg ++ [⟨"user", m⟩] := by
    rw [lastN_append_last 6 hist0 ⟨"user", m, t1⟩ (by omega), List.map_append]
    rfl
  refine ⟨?_, hwin, ?_⟩
  · unfold buildMessages
    have hlen : (hist0 ++ [(⟨"user", m, t1⟩ : Turn)]).length = hist0.length + 1 := by simp
    rw [← hlen, lastN_min_self]
  · unfold buildMessages
    rw [hwin]
    simp [List.count_append, List.count_cons]

/-- Witness for the C2 theorem: empty prior history and message "hi". -/
theorem chat_prompt_witness :
    buildMessages ([] ++ [⟨"user", "hi", 0⟩]) "hi"
        = ⟨"system", SYSTEM_PROMPT⟩ ::
            ((lastN (min 6 (List.length ([] : List Turn) + 1))
                ([] ++ [⟨"user", "hi", 0⟩])).map turnToMsg ++ [⟨"user", "hi"⟩])
      ∧ (lastN 6 ([] ++ [⟨"user", "hi", 0⟩])).map turnToMsg
          = (lastN 5 ([] : List Turn)).map turnToMsg ++ [⟨"user", "hi"⟩]
      ∧ 2 ≤ (buildMessages ([] ++ [⟨"user", "hi", 0⟩]) "hi").count ⟨"user", "hi"⟩ :=
  chat_prompt_spec [] "hi" 0 (by decide)

/-- C3: when the extracted text is longer than the ceiling, the text sent
for summarization (before the appended truncation note) is exactly the
first `maxChars` characters, the `truncated` flag is true and the reported
`char_count` is the original length; otherwise the text is sent unmodified
with `truncated` false. The default ceiling is 16000. -/
theorem upload_truncation_spec :
    MAX_PROMPT_CHARS_default = 16000
    ∧ (∀ (text : String) (maxChars : Nat),
        pyLen text > maxChars →
          (uploadTruncate text maxChars).1 = pyTake text maxChars
          ∧ pyLen (uploadTruncate text maxChars).1 = maxChars
          ∧ (uploadTruncate text maxChars).2.2.1 = true
          ∧ (uploadTruncate text maxChars).2.2.2 = pyLen text)
    ∧ (∀ (text : String) (maxChars : Nat),
        pyLen text ≤ maxChars →
          (uploadTruncate text maxChars).1 = text
          ∧ (uploadTruncate text maxChars).2.2.1 = false
          ∧ (uploadTruncate text maxChars).2.2.2 = pyLen text) := by
  refine ⟨rfl, fun text maxChars h => ?_, fun text maxChars h => ?_⟩
  · unfold uploadTruncate
    rw [if_pos h]
    refine ⟨rfl, ?_, rfl, rfl⟩
    show (text.data.take maxChars).length = maxChars
    rw [List.length_take]
    exact Nat.min_eq_left (Nat.le_of_lt h)
  · unfold uploadTruncate
    rw [if_neg (by omega)]
    exact ⟨rfl, rfl, rfl⟩

/-- Witness for the C3 theorem: "abcd" against ceiling 2 (truncating) and
"ab" against ceiling 5 (not truncating). -/
theorem upload_truncation_witness :
    ((uploadTruncate "abcd" 2).1 = pyTake "abcd" 2
      ∧ pyLen (uploadTruncate "abcd" 2).1 = 2
      ∧ (uploadTruncate "abcd" 2).2.2.1 = true
      ∧ (uploadTruncate "abcd" 2).2.2.2 = pyLen "abcd")
    ∧ ((uploadTruncate "ab" 5).1 = "ab"
      ∧ (uploadTruncate "ab" 5).2.2.1 = false
      ∧ (uploadTruncate "ab" 5).2.2.2 = pyLen "ab") :=
  ⟨upload_truncation_spec.2.1 "abcd" 2 (by decide),
   upload_truncation_spec.2.2 "ab" 5 (by decide)⟩

theorem foldl_dedupAppend_extends :
    ∀ (l : List String) (acc : List String), ∃ s, l.foldl dedupAppend acc = acc ++ s := by
  intro l
  induction l with
  | nil => intro acc; exact ⟨[], by simp⟩
  | cons c t ih =>
    intro acc
    obtain ⟨s, hs⟩ := ih (dedupAppend acc c)
    rw [List.foldl_cons, hs]
    unfold dedupAppend
    split
    · exact ⟨[c] ++ s, by simp⟩
    · exact ⟨s, rfl⟩

theorem dedupAppend_length_le (acc : List String) (c : String) :
    (dedupAppend acc c).length ≤ acc.length + 1 := by
  unfold dedupAppend
  split <;> simp

theorem kwLoop_take_eq :
    ∀ (l : List String) (acc : List String), acc.length < 8 →
      kwLoop l acc = List.take 8 ((l.map kwClean).foldl dedupAppend acc) := by
  intro l
  induction l with
  | nil =>
    intro acc h
    simp [kwLoop, List.take_of_length_le (Nat.le_of_lt h)]
  | cons c t ih =>
    intro acc h
    rw [List.map_cons, List.foldl_cons]
    show (let clean := kwClean c;
      let keywords1 := if clean ≠ "" ∧ clean ∉ acc then acc ++ [clean] else acc;
      if keywords1.length ≥ 8 then keywords1 else kwLoop t keywords1)
      = List.take 8 (List.foldl dedupAppend (dedupAppend acc (kwClean c)) (t.map kwClean))
    have hd : (if kwClean c ≠ "" ∧ kwClean c ∉ acc then acc ++ [kwClean c] else acc)
        = dedupAppend acc (kwClean c) := rfl
    dsimp only
    rw [hd]
    by_cases hlen : (dedupAppend acc (kwClean c)).length ≥ 8
    · rw [if_pos hlen]
      have h8 : (dedupAppend acc (kwClean c)).length = 8 := by
        have := dedupAppend_length_le acc (kwClean c)
        omega
      obtain ⟨s, hs⟩ := foldl_dedupAppend_extends (t.map kwClean) (dedupAppend acc (kwClean c))
      rw [hs, List.take_append_eq_append_take, h8,
        List.take_of_length_le (Nat.le_of_eq h8)]
      simp
    · rw [if_neg hlen]
      exact ih _ (by omega)

theorem parse_keywords_eq_spec (t : String) : parse_keywords (some t) = keywordsSpec t := by
  by_cases ht : t = ""
  · subst ht
    decide
  · unfold keywordsSpec reSplitKw
    show (if t = "" then [] else kwLoop (reSplitAux false t.data []) [])
      = List.take 8 (List.foldl dedupAppend [] ((reSplitAux false t.data []).map kwClean))
    rw [if_neg ht]
    exact kwLoop_take_eq (reSplitAux false t.data []) [] (by decide)

theorem dedupAppend_nodup {acc : List String} (h : acc.Nodup) (c : String) :
    (dedupAppend acc c).Nodup := by
  unfold dedupAppend
  split
  case isTrue h1 =>
    refine List.Nodup.append h (List.nodup_singleton c) ?_
    intro a ha hb
    rw [List.mem_singleton] at hb
    subst hb
    exact h1.2 ha
  case isFalse _ => exact h

theorem foldl_dedupAppend_nodup :
    ∀ (l : List String) (acc : List String), acc.Nodup → (l.foldl dedupAppend acc).Nodup := by
  intro l
  induction l with
  | nil => intro acc h; exact h
  | cons c t ih =>
    intro acc h
    rw [List.foldl_cons]
    exact ih _ (dedupAppend_nodup h c)

/-- C4: keyword parsing equals the declarative description — split on runs
of commas/semicolons/newlines, strip and lowercase each piece, drop empty
pieces while deduplicating in first-occurrence order, cap at 8 — the absent
completion text gives the empty list, the completion text
"Alpha, Beta; Gamma\nAlpha" gives exactly ["alpha", "beta", "gamma"], and
every result has at most 8 pairwise-distinct entries. -/
theorem upload_keywords_spec :
    (∀ t : String, parse_keywords (some t) = keywordsSpec t)
    ∧ parse_keywords none = []
    ∧ parse_keywords (some "Alpha, Beta; Gamma\nAlpha") = ["alpha", "beta", "gamma"]
    ∧ (∀ kw : Option String, (parse_keywords kw).length ≤ 8)
    ∧ (∀ kw : Option String, (parse_keywords kw).Nodup) := by
  refine ⟨parse_keywords_eq_spec, rfl, by decide, ?_, ?_⟩
  · intro kw
    cases kw with
    | none => simp [parse_keywords]
    | some t =>
      rw [parse_keywords_eq_spec t]
      unfold keywordsSpec
      rw [List.length_take]
      exact Nat.min_le_left _ _
  · intro kw
    cases kw with
    | none => simp [parse_keywords]
    | some t =>
      rw [parse_keywords_eq_spec t]
      unfold keywordsSpec
      exact List.Nodup.sublist (List.take_sublist _ _)
        (foldl_dedupAppend_nodup _ [] List.nodup_nil)
